import Mathlib

/-!
Shallow embedding of the `fetchmail_attach_from_folder` and
`fetchmail_attach_from_folder_bydate` Odoo modules.

Side-effecting Python/Odoo code is modelled by pure functions that return an
explicit list of `Effect`s (IMAP `store` commands, record creations, server
action runs) together with the updated database state.  External
collaborators (the IMAP connection, the record store, per-message failure)
are passed in as explicit parameters.
-/

namespace Fetchmail

/-- A python value appearing inside a parsed attachment tuple: either a
`str` or a `bytes` object. -/
inductive PyVal where
  | str (s : String)
  | bytes (b : List Nat)
deriving DecidableEq, Repr

/-- Model of python `encode("utf-8")` applied when the content is a `str`;
`bytes` content is passed through (mirrors
`if isinstance(fcontent, str): fcontent = fcontent.encode("utf-8")`). -/
def pyEncode : PyVal → List Nat
  | .str s => s.data.flatMap (fun c => (String.utf8EncodeChar c).map (fun b => b.toNat))
  | .bytes b => b

/-- The base64 alphabet used by python's `base64.b64encode`. -/
def b64Alphabet : List Char :=
  "ABCDEFGHIJKLMNOPQRSTUVWXYZabcdefghijklmnopqrstuvwxyz0123456789+/".data

/-- Character for a 6-bit group. -/
def b64char (n : Nat) : Char := b64Alphabet.getD n '='

/-- Standard base64 encoding of a byte list, 3 bytes to 4 characters with
`=` padding, as performed by `base64.b64encode`. -/
def b64encodeChars : List Nat → List Char
  | [] => []
  | [a] => [b64char (a / 4), b64char (a % 4 * 16), '=', '=']
  | [a, b] => [b64char (a / 4), b64char (a % 4 * 16 + b / 16), b64char (b % 16 * 4), '=']
  | a :: b :: c :: rest =>
      b64char (a / 4) :: b64char (a % 4 * 16 + b / 16) ::
        b64char (b % 16 * 4 + c / 64) :: b64char (c % 64) :: b64encodeChars rest

/-- Model of `base64.b64encode(bytes(fcontent))` as a string. -/
def b64encode (bs : List Nat) : String := String.mk (b64encodeChars bs)

/-- Folder confirmation state (`state` selection field). -/
inductive FolderState where
  | draft
  | done
deriving DecidableEq, Repr

/-- Relevant fields of a `fetchmail.server.folder` record. -/
structure Folder where
  active : Bool
  state : FolderState
  delete_matching : Bool
  flag_nonmatching : Bool
  match_first : Bool
  /-- `action_id`: optional server action to trigger for each incoming mail. -/
  action_id : Option Nat
  /-- `model_id.model`: the target model's technical name. -/
  model_name : String
  /-- Whether `"partner_id" in self.env[model_name]._fields`. -/
  has_partner_field : Bool
deriving DecidableEq, Repr

/-- Relevant fields of the parent `fetchmail.server` record. -/
structure Server where
  /-- The `attach` flag: keep attachments of incoming mails. -/
  attach : Bool
deriving DecidableEq, Repr

/-- A candidate business record returned by a match algorithm (`browse`
record of the target model). -/
structure MRecord where
  id : Nat
  /-- `partner_id.id` when the record has a `partner_id` field and it is
  set; `none` models an empty (falsy) recordset. -/
  partner_id : Option Nat
deriving DecidableEq, Repr

/-- A parsed incoming e-mail as produced by `mail.thread.message_parse`. -/
structure ParsedMail where
  message_id : String
  subject : String
  body : String
  email_from : String
  date : String
  /-- Attachment tuples; the code expects at least `(filename, content)`
  but tolerates extra elements and skips shorter tuples. -/
  attachments : List (List PyVal)
deriving DecidableEq, Repr

/-- A stored `mail.message` record (the fields relevant to dedup). -/
structure MsgRec where
  message_id : String
  model : String
  res_id : Nat
deriving DecidableEq, Repr

/-- The record store visible to the folder code: the `mail.message`
table. -/
structure Db where
  messages : List MsgRec
deriving DecidableEq, Repr

/-- An observable side effect of processing a message. -/
inductive Effect where
  /-- `connection.store(msgid, sign, flag)`. -/
  | store (msgid : Nat) (sign : String) (flag : String)
  /-- `self.env["ir.attachment"].create({...})`. -/
  | createAttachment (name : PyVal) (datas : String) (res_model : String) (res_id : Nat)
  /-- `self.env["mail.message"].create({...})`; `attachment_count` is the
  number of attachment records linked via `attachment_ids`. -/
  | createMessage (model : String) (res_id : Nat) (message_type : String)
      (author_id : Option Nat) (body : String) (subject : String)
      (email_from : String) (date : String) (message_id : String)
      (attachment_count : Nat)
  /-- `action.with_context(active_id=..., active_model=...).run()`. -/
  | runAction (action : Nat) (active_id : Nat) (active_model : String)
deriving DecidableEq, Repr

/-- Discriminator for `Effect.store`. -/
def Effect.isStore : Effect → Bool
  | .store _ _ _ => true
  | _ => false

/-- Discriminator for `Effect.createAttachment`. -/
def Effect.isCreateAttachment : Effect → Bool
  | .createAttachment _ _ _ _ => true
  | _ => false

/-- Discriminator for `Effect.createMessage`. -/
def Effect.isCreateMessage : Effect → Bool
  | .createMessage _ _ _ _ _ _ _ _ _ _ => true
  | _ => false

/-- Discriminator for `Effect.runAction`. -/
def Effect.isRunAction : Effect → Bool
  | .runAction _ _ _ => true
  | _ => false

/-- The business-record id an effect is aimed at: the `res_id` of a
record/attachment creation, the `active_id` of an action run. -/
def Effect.recId : Effect → Option Nat
  | .createAttachment _ _ _ r => some r
  | .createMessage _ r _ _ _ _ _ _ _ _ => some r
  | .runAction _ r _ => some r
  | .store _ _ _ => none

/-- The `record.exists()` oracle in which every record exists. -/
def liveAll : Nat → Bool := fun _ => true

/-- The partner lookup at the head of `attach_mail`: the matched record
itself when the target model is `res.partner`, its `partner_id` when the
model has such a field, otherwise `False` (here `none`). -/
def attach_partner (folder : Folder) (match_object : MRecord) : Option Nat :=
  if folder.model_name = "res.partner" then some match_object.id
  else if folder.has_partner_field then match_object.partner_id
  else none

/-- The `author_id` value written by `attach_mail`:
`partner and partner.id or False` (a zero id is falsy in python). -/
def attach_author (folder : Folder) (match_object : MRecord) : Option Nat :=
  match attach_partner folder match_object with
  | some p => if p = 0 then none else some p
  | none => none

/-- The `ir.attachment` creations performed by `attach_mail`: only when
the server keeps attachments and the parsed mail carries a non-empty
(truthy) attachment list; tuples shorter than 2 are skipped, the first
two elements are filename and content, and `str` content is utf-8
encoded before base64. -/
def attachment_effects (server : Server) (folder : Folder)
    (match_object : MRecord) (mail_message : ParsedMail) : List Effect :=
  if server.attach ∧ mail_message.attachments ≠ [] then
    (mail_message.attachments.filter (fun a => 2 ≤ a.length)).map
      (fun a =>
        Effect.createAttachment (a.getD 0 (.str ""))
          (b64encode (pyEncode (a.getD 1 (.str ""))))
          folder.model_name match_object.id)
  else []

/-- Shallow embedding of `FetchmailServerFolder.attach_mail`: computes the
optional author partner, creates one `ir.attachment` per attachment tuple
of length ≥ 2 (when the server keeps attachments), and creates one
`mail.message` on the matched record. -/
def attach_mail (server : Server) (folder : Folder) (match_object : MRecord)
    (mail_message : ParsedMail) (db : Db) : List Effect × Db :=
  let attachments := attachment_effects server folder match_object mail_message
  (attachments ++
      [Effect.createMessage folder.model_name match_object.id "email"
        (attach_author folder match_object) mail_message.body
        mail_message.subject mail_message.email_from mail_message.date
        mail_message.message_id attachments.length],
    { messages :=
        db.messages ++
          [⟨mail_message.message_id, folder.model_name, match_object.id⟩] })

/-- Modelled from the spec: the match-algorithm `handle_match` method (the
`match_algorithm` package itself is not part of the sources at hand;
spec 4.1 describes the contract).  It "performs the attach side effect
(see 4.3) and returns the identifier used for the post-match trigger":
it calls `attach_mail` on the matched record and returns that record's
id as the target thread id. -/
def handle_match (server : Server) (folder : Folder) (matched_record : MRecord)
    (mail_message : ParsedMail) (db : Db) : List Effect × Db × Nat :=
  ((attach_mail server folder matched_record mail_message db).1,
    (attach_mail server folder matched_record mail_message db).2,
    matched_record.id)

/-- Shallow embedding of `FetchmailServerFolder.run_server_action`: if no
server action is configured, do nothing; otherwise run the action once per
browsed record that still exists (`live` models `record.exists()`). -/
def run_server_action (folder : Folder) (live : Nat → Bool)
    (matched_object_ids : List Nat) : List Effect :=
  match folder.action_id with
  | none => []
  | some action =>
      (matched_object_ids.filter live).map
        (fun i => Effect.runAction action i folder.model_name)

/-- Shallow embedding of `FetchmailServerFolder.update_msg`: store IMAP
flags depending on match result and folder settings (`flagged` defaults to
`False` at the only call site in `apply_matching`). -/
def update_msg (folder : Folder) (msgid : Nat) (matched : Bool)
    (flagged : Bool) : List Effect :=
  if matched then
    if folder.delete_matching then [.store msgid "+FLAGS" "\\DELETED"]
    else if flagged && folder.flag_nonmatching then [.store msgid "-FLAGS" "\\FLAGGED"]
    else []
  else
    if folder.flag_nonmatching then [.store msgid "+FLAGS" "\\FLAGGED"]
    else []

/-- The truthiness of `matched = matches and (len(matches) == 1 or
self.match_first)` in `apply_matching`: an empty candidate list is falsy. -/
def matchedDecision (matchList : List MRecord) (match_first : Bool) : Bool :=
  !matchList.isEmpty && (matchList.length == 1 || match_first)

/-- Shallow embedding of `FetchmailServerFolder.apply_matching`.  The
already-fetched parsed message `mail_message` stands for the result of
`fetch_msg`; `matches` stands for the result of the pluggable
`match_algorithm.search_matches`; `live` models `record.exists()`.
Dedup: if a `mail.message` with this `message_id` exists (searched by
`message_id` alone), return with no side effect.  Otherwise, on a match,
run `handle_match` on `matches[0]` and the server action, and always end
with `update_msg`. -/
def apply_matching (server : Server) (folder : Folder) (msgid : Nat)
    (mail_message : ParsedMail) (matchList : List MRecord) (live : Nat → Bool)
    (db : Db) : List Effect × Db :=
  if db.messages.any (fun r => r.message_id == mail_message.message_id) then
    ([], db)
  else if matchedDecision matchList folder.match_first then
    ((handle_match server folder (matchList.getD 0 ⟨0, none⟩) mail_message db).1 ++
      run_server_action folder live
        [(handle_match server folder (matchList.getD 0 ⟨0, none⟩) mail_message db).2.2] ++
      update_msg folder msgid true false,
      (handle_match server folder (matchList.getD 0 ⟨0, none⟩) mail_message db).2.1)
  else
    (update_msg folder msgid false false, db)

/-- Outcome of one per-message `apply_matching` step inside
`retrieve_imap_folder`, as seen through the savepoint: either the step
succeeds with its effects and new database state, or it raises and the
savepoint rollback restores the pre-step state. -/
inductive StepResult where
  | ok (effs : List Effect) (db : Db)
  | err
deriving Repr

/-- Shallow embedding of `FetchmailServerFolder.retrieve_imap_folder`'s
per-message loop: each message id is processed under a savepoint; on
success the savepoint is released and its effects and database writes are
kept; on an exception the savepoint is rolled back (the database reverts
to the pre-step state, no effects survive), the failure is logged (the
third component collects the logged message ids) and the loop continues
with the next message id. -/
def retrieve_imap_folder (step : Nat → Db → StepResult) :
    List Nat → Db → List Effect × Db × List Nat
  | [], db => ([], db, [])
  | msgid :: rest, db =>
      match step msgid db with
      | .ok effs db2 =>
          (effs ++ (retrieve_imap_folder step rest db2).1,
            (retrieve_imap_folder step rest db2).2.1,
            (retrieve_imap_folder step rest db2).2.2)
      | .err =>
          ((retrieve_imap_folder step rest db).1,
            (retrieve_imap_folder step rest db).2.1,
            msgid :: (retrieve_imap_folder step rest db).2.2)

/-- A connection-lifecycle event observable from
`FetchmailServerFolder.fetch_mail`. -/
inductive FEvent where
  /-- `this.server_id.connect()` succeeded. -/
  | connect (folder : Nat)
  /-- `this.retrieve_imap_folder(connection)` completed. -/
  | processed (folder : Nat)
  /-- `connection.close()`. -/
  | close (folder : Nat)
  /-- `_logger.error(...)` in the `except` clause. -/
  | logError (folder : Nat)
  /-- `connection.logout()` in the `finally` clause. -/
  | logout (folder : Nat)
deriving DecidableEq, Repr

/-- One folder's slice of a `fetch_mail` run: the folder record, an index
identifying it, and oracles telling whether `connect()` and the body
(`retrieve_imap_folder` + `close`) succeed on this run. -/
structure FolderRun where
  folder : Folder
  idx : Nat
  connectOk : Bool
  processOk : Bool

/-- Shallow embedding of the per-folder body of
`FetchmailServerFolder.fetch_mail`: skip folders that are inactive or not
confirmed; otherwise open a fresh connection inside `try`; an exception
from `connect()` leaves `connection = None` (log, no logout), an
exception from the body is logged and the `finally` clause logs the
connection out; on success the connection is closed and logged out. -/
def fetch_mail_one (r : FolderRun) : List FEvent :=
  if !r.folder.active || r.folder.state != FolderState.done then []
  else if !r.connectOk then [.logError r.idx]
  else if !r.processOk then [.connect r.idx, .logError r.idx, .logout r.idx]
  else [.connect r.idx, .processed r.idx, .close r.idx, .logout r.idx]

/-- Shallow embedding of `FetchmailServerFolder.fetch_mail`: iterate over
all folders of the recordset, handling each with `fetch_mail_one`. -/
def fetch_mail (runs : List FolderRun) : List FEvent :=
  runs.flatMap fetch_mail_one

/-- A sample confirmed, active folder targeting `res.partner` with a
configured server action and default flagging settings. -/
def folderSample : Folder :=
  { active := true, state := .done, delete_matching := false,
    flag_nonmatching := true, match_first := false, action_id := some 11,
    model_name := "res.partner", has_partner_field := false }

/-- A sample parsed mail with one well-formed attachment tuple and one
malformed single-element tuple. -/
def mailSample : ParsedMail :=
  { message_id := "<m1@example.com>", subject := "subj", body := "body",
    email_from := "a@x.com", date := "2020-01-01 00:00:00",
    attachments := [[.str "f.txt", .bytes [77, 97, 110]], [.str "short"]] }

/-- A sample matched candidate record. -/
def recSample : MRecord := ⟨5, some 7⟩

/-- An initially empty `mail.message` table. -/
def dbEmpty : Db := ⟨[]⟩

/-- A sample server that keeps attachments. -/
def serverSample : Server := ⟨true⟩

/-- A sample per-message step for the folder-scan theorems: message id 5
always raises; any other message id stores a flag and inserts one
`mail.message` row. -/
def stepSample : Nat → Db → StepResult := fun msgid db =>
  if msgid = 5 then .err
  else .ok [.store msgid "+FLAGS" "\\SEEN"]
    ⟨db.messages ++ [⟨Nat.repr msgid, "res.partner", msgid⟩]⟩

/-- Sample `fetch_mail` runs: an archived folder, a successful folder, a
folder whose processing raises and a folder whose connect raises. -/
def runSkip : FolderRun := ⟨{ folderSample with active := false }, 0, true, true⟩

/-- A folder run where connect and processing both succeed. -/
def runOk : FolderRun := ⟨folderSample, 1, true, true⟩

/-- A folder run where processing raises after a successful connect. -/
def runFail : FolderRun := ⟨folderSample, 2, true, false⟩

/-- A folder run where `connect()` itself raises. -/
def runNoConn : FolderRun := ⟨folderSample, 3, false, true⟩

end Fetchmail

namespace Bydate

/-- The `fetchmail.server.folder` extension of the bydate module: the
`last_internal_date` cursor, modelled as an optional timestamp in seconds
(`none` models an unset/falsy datetime field). -/
structure BFolder where
  last_internal_date : Option Nat
deriving DecidableEq, Repr

/-- Seconds per day, for the day truncation performed by
`last_internal_date.strftime('%d-%b-%Y')` in the `SINCE` search. -/
def secondsPerDay : Nat := 86400

/-- An observable event of the bydate `get_msgids`. -/
inductive GEvent where
  /-- `from pudb.remote import set_trace; set_trace(term_size=(190, 55))`. -/
  | setTrace
  /-- `connection.search(None, 'SINCE', <day>)`, day-truncated cursor. -/
  | searchSince (day : Nat)
  /-- `connection.search(None, 'UNDELETED')`. -/
  | searchUndeleted
  /-- `connection.fetch(int(uid), 'INTERNALDATE')`. -/
  | fetchInternal (uid : Nat)
deriving DecidableEq, Repr

/-- The IMAP connection as seen by the bydate `get_msgids`: a day-keyed
`SINCE` search, the `UNDELETED` search, and the per-uid server-assigned
internal timestamp (seconds). -/
structure ImapConn where
  /-- Result of `connection.search(None, 'SINCE', day)`: status and the
  split uid list. -/
  searchSince : Nat → String × List Nat
  /-- Result of `connection.search(None, 'UNDELETED')`. -/
  searchUndeleted : String × List Nat
  /-- Internal timestamp of a message, from
  `imaplib.Internaldate2tuple(connection.fetch(uid, 'INTERNALDATE'))`. -/
  internalDate : Nat → Nat

/-- Shallow embedding of the bydate `FetchmailServerFolder.get_msgids`
(`fetchmail_attach_from_folder_bydate/models/fetchmail_server.py`): it
first unconditionally invokes the remote debugger breakpoint, then, when
the folder's cursor is set, issues a day-granularity `SINCE` search and
keeps each returned uid only when its fetched internal timestamp is
strictly greater than the cursor; when the cursor is unset it returns the
`UNDELETED` search result.  Returns the event trace, the search status
and the candidate uid list. -/
def get_msgids (conn : ImapConn) (folder : BFolder) :
    List GEvent × String × List Nat :=
  match folder.last_internal_date with
  | some last =>
      let day := last / secondsPerDay
      let uids := (conn.searchSince day).2
      let kept := uids.filter (fun uid => last < conn.internalDate uid)
      (GEvent.setTrace :: GEvent.searchSince day :: uids.map GEvent.fetchInternal,
        (conn.searchSince day).1, kept)
  | none =>
      ([GEvent.setTrace, GEvent.searchUndeleted],
        (conn.searchUndeleted).1, (conn.searchUndeleted).2)

/-- Shallow embedding of the bydate `FetchmailServerFolder.handle_folder`:
it delegates to the inherited `handle_folder` (modelled from the spec as
an opaque pass over the folder's messages, given here as its outcome
`superResult`, `none` standing for a raised exception; per spec 4.2 and
9 the inherited pass never mutates the cursor), and after a successful
pass sets `last_internal_date` to `fields.Datetime.now()`, the processing
time `now` — not to any message timestamp.  On an exception the
assignment is never reached and the folder is unchanged. -/
def handle_folder (superResult : Option Nat) (now : Nat) (folder : BFolder) :
    Option Nat × BFolder :=
  match superResult with
  | none => (none, folder)
  | some res => (some res, { folder with last_internal_date := some now })

/-- A concrete IMAP connection used to instantiate the bydate theorems:
the `SINCE` search returns uids 1, 2 and 3, the `UNDELETED` search returns
uids 4 and 5, and the internal timestamp of uid `u` is `u * 100`. -/
def connSample : ImapConn where
  searchSince := fun _ => ("OK", [1, 2, 3])
  searchUndeleted := ("OK", [4, 5])
  internalDate := fun uid => uid * 100

end Bydate

namespace Fetchmail

/-- Every effect emitted by `update_msg` is an IMAP `store` command. -/
theorem update_msg_all_store (folder : Folder) (msgid : Nat)
    (matched flagged : Bool) :
    ∀ e ∈ update_msg folder msgid matched flagged, e.isStore = true := by
  intro e he
  unfold update_msg at he
  split_ifs at he <;> simp_all [Effect.isStore]

/-- The `update_msg` effects contain no effect of a kind that maps the
`store` constructor to `false`. -/
theorem update_msg_filter_nil (folder : Folder) (msgid : Nat)
    (matched flagged : Bool) (p : Effect → Bool)
    (hp : ∀ a b c, p (.store a b c) = false) :
    (update_msg folder msgid matched flagged).filter p = [] := by
  rw [List.filter_eq_nil_iff]
  intro e he
  have hs := update_msg_all_store folder msgid matched flagged e he
  cases e <;> simp_all [Effect.isStore]

/-- Every effect emitted by `run_server_action` is a `runAction`. -/
theorem run_server_action_all_run (folder : Folder) (live : Nat → Bool)
    (ids : List Nat) :
    ∀ e ∈ run_server_action folder live ids, e.isRunAction = true := by
  intro e he
  unfold run_server_action at he
  cases h : folder.action_id with
  | none => simp [h] at he
  | some a =>
      rw [h] at he
      obtain ⟨i, _, rfl⟩ := List.mem_map.mp he
      rfl

/-- The `run_server_action` effects contain no effect of a kind that maps
the `runAction` constructor to `false`. -/
theorem run_server_action_filter_nil (folder : Folder) (live : Nat → Bool)
    (ids : List Nat) (p : Effect → Bool)
    (hp : ∀ a b c, p (.runAction a b c) = false) :
    (run_server_action folder live ids).filter p = [] := by
  rw [List.filter_eq_nil_iff]
  intro e he
  have hs := run_server_action_all_run folder live ids e he
  cases e <;> simp_all [Effect.isRunAction]

/-- Every effect emitted by `attachment_effects` is a
`createAttachment`. -/
theorem attachment_effects_all_attach (server : Server) (folder : Folder)
    (match_object : MRecord) (mail_message : ParsedMail) :
    ∀ e ∈ attachment_effects server folder match_object mail_message,
      e.isCreateAttachment = true := by
  intro e he
  unfold attachment_effects at he
  split at he
  · obtain ⟨a, _, rfl⟩ := List.mem_map.mp he
    rfl
  · simp at he

/-- The `attachment_effects` contain no effect of a kind that maps the
`createAttachment` constructor to `false`. -/
theorem attachment_effects_filter_nil (server : Server) (folder : Folder)
    (match_object : MRecord) (mail_message : ParsedMail) (p : Effect → Bool)
    (hp : ∀ a b c d, p (.createAttachment a b c d) = false) :
    (attachment_effects server folder match_object mail_message).filter p = [] := by
  rw [List.filter_eq_nil_iff]
  intro e he
  have hs := attachment_effects_all_attach server folder match_object mail_message e he
  cases e <;> simp_all [Effect.isCreateAttachment]

/-- The dedup search of `apply_matching` comes up empty exactly when no
stored message carries the incoming `message_id`. -/
theorem any_message_id_false {db : Db} {mail_message : ParsedMail}
    (hdb : ∀ r ∈ db.messages, r.message_id ≠ mail_message.message_id) :
    (db.messages.any (fun r => r.message_id == mail_message.message_id)) = false := by
  rw [List.any_eq_false]
  intro r hr
  simp [hdb r hr]

/-- Unfolding of `apply_matching` in the no-duplicate, matched case. -/
theorem apply_matching_matched_eq (server : Server) (folder : Folder)
    (msgid : Nat) (mail_message : ParsedMail) (matchList : List MRecord)
    (live : Nat → Bool) (db : Db)
    (hdb : ∀ r ∈ db.messages, r.message_id ≠ mail_message.message_id)
    (hm : matchedDecision matchList folder.match_first = true) :
    apply_matching server folder msgid mail_message matchList live db =
      ((attach_mail server folder (matchList.getD 0 ⟨0, none⟩) mail_message db).1 ++
        run_server_action folder live [(matchList.getD 0 ⟨0, none⟩).id] ++
        update_msg folder msgid true false,
        (attach_mail server folder (matchList.getD 0 ⟨0, none⟩) mail_message db).2) := by
  unfold apply_matching
  rw [any_message_id_false hdb, hm]
  rfl

/-- Unfolding of `apply_matching` in the no-duplicate, unmatched case. -/
theorem apply_matching_unmatched_eq (server : Server) (folder : Folder)
    (msgid : Nat) (mail_message : ParsedMail) (matchList : List MRecord)
    (live : Nat → Bool) (db : Db)
    (hdb : ∀ r ∈ db.messages, r.message_id ≠ mail_message.message_id)
    (hm : matchedDecision matchList folder.match_first = false) :
    apply_matching server folder msgid mail_message matchList live db =
      (update_msg folder msgid false false, db) := by
  unfold apply_matching
  rw [any_message_id_false hdb, hm]
  rfl

/-- Unfolding of `apply_matching` in the duplicate case. -/
theorem apply_matching_dup_eq (server : Server) (folder : Folder)
    (msgid : Nat) (mail_message : ParsedMail) (matchList : List MRecord)
    (live : Nat → Bool) (db : Db) (r : MsgRec) (hr : r ∈ db.messages)
    (hmid : r.message_id = mail_message.message_id) :
    apply_matching server folder msgid mail_message matchList live db =
      ([], db) := by
  unfold apply_matching
  have : (db.messages.any (fun r => r.message_id == mail_message.message_id)) = true := by
    rw [List.any_eq_true]
    exact ⟨r, hr, by simp [hmid]⟩
  rw [this]
  rfl

/-- Claim C1: the match decision of `apply_matching` is true iff
`search_matches` returned exactly one candidate, or several candidates
with the folder's first-match-wins flag set; on a match exactly one
`mail.message` is created, on the first/only candidate, and the
configured server action runs exactly once on that record; several
candidates without first-match-wins count as no match and yield no record
creation, no action and an unchanged database — and never an error. -/
theorem apply_matching_match_policy (server : Server) (folder : Folder)
    (msgid : Nat) (mail_message : ParsedMail) (matchList : List MRecord)
    (live : Nat → Bool) (db : Db) (action : Nat)
    (hdb : ∀ r ∈ db.messages, r.message_id ≠ mail_message.message_id)
    (hact : folder.action_id = some action)
    (hlive : live ((matchList.getD 0 ⟨0, none⟩).id) = true) :
    (matchedDecision matchList folder.match_first = true ↔
      (matchList.length = 1 ∨
        (1 < matchList.length ∧ folder.match_first = true))) ∧
    (matchedDecision matchList folder.match_first = true →
      ((apply_matching server folder msgid mail_message matchList live db).1.filter
          Effect.isCreateMessage).map Effect.recId =
        [some (matchList.getD 0 ⟨0, none⟩).id] ∧
      (apply_matching server folder msgid mail_message matchList live db).1.filter
          Effect.isRunAction =
        [Effect.runAction action (matchList.getD 0 ⟨0, none⟩).id folder.model_name]) ∧
    (matchedDecision matchList folder.match_first = false →
      (apply_matching server folder msgid mail_message matchList live db).1.filter
          (fun e => e.isCreateMessage || e.isCreateAttachment || e.isRunAction) = [] ∧
      (apply_matching server folder msgid mail_message matchList live db).2 = db) := by
  refine ⟨?_, ?_, ?_⟩
  · unfold matchedDecision
    cases matchList with
    | nil => simp
    | cons a as =>
        cases as with
        | nil => simp
        | cons b bs =>
            cases h : folder.match_first
            · simp [h]
            · simp [h]
  · intro hm
    rw [apply_matching_matched_eq server folder msgid mail_message matchList live db hdb hm]
    constructor
    · simp only [attach_mail, List.filter_append,
        attachment_effects_filter_nil server folder _ mail_message
          Effect.isCreateMessage (fun _ _ _ _ => rfl),
        update_msg_filter_nil folder msgid true false Effect.isCreateMessage
          (fun _ _ _ => rfl),
        run_server_action_filter_nil folder live _ Effect.isCreateMessage
          (fun _ _ _ => rfl)]
      simp [Effect.isCreateMessage, Effect.recId]
    · have hl : List.filter live [(matchList.getD 0 ⟨0, none⟩).id] =
          [(matchList.getD 0 ⟨0, none⟩).id] := by
        simp only [List.getD, List.get?_eq_getElem?] at hlive ⊢
        simp [hlive]
      simp only [attach_mail, List.filter_append,
        attachment_effects_filter_nil server folder _ mail_message
          Effect.isRunAction (fun _ _ _ _ => rfl),
        update_msg_filter_nil folder msgid true false Effect.isRunAction
          (fun _ _ _ => rfl), run_server_action, hact, hl]
      simp [Effect.isRunAction, Effect.isCreateMessage]
  · intro hm
    rw [apply_matching_unmatched_eq server folder msgid mail_message matchList live db hdb hm]
    exact ⟨update_msg_filter_nil folder msgid false false _ (fun _ _ _ => rfl), rfl⟩

/-- Witness for claim C1: a single candidate, a configured action and an
empty message table. -/
theorem apply_matching_match_policy_witness :
    (matchedDecision [recSample] folderSample.match_first = true ↔
      ([recSample].length = 1 ∨
        (1 < [recSample].length ∧ folderSample.match_first = true))) ∧
    (matchedDecision [recSample] folderSample.match_first = true →
      ((apply_matching serverSample folderSample 3 mailSample [recSample] liveAll dbEmpty).1.filter
          Effect.isCreateMessage).map Effect.recId =
        [some ([recSample].getD 0 ⟨0, none⟩).id] ∧
      (apply_matching serverSample folderSample 3 mailSample [recSample] liveAll dbEmpty).1.filter
          Effect.isRunAction =
        [Effect.runAction 11 ([recSample].getD 0 ⟨0, none⟩).id folderSample.model_name]) ∧
    (matchedDecision [recSample] folderSample.match_first = false →
      (apply_matching serverSample folderSample 3 mailSample [recSample] liveAll dbEmpty).1.filter
          (fun e => e.isCreateMessage || e.isCreateAttachment || e.isRunAction) = [] ∧
      (apply_matching serverSample folderSample 3 mailSample [recSample] liveAll dbEmpty).2 = dbEmpty) :=
  apply_matching_match_policy serverSample folderSample 3 mailSample
    [recSample] liveAll dbEmpty 11 (by simp [dbEmpty]) rfl rfl

/-- Claim C3: a message whose `message_id` is already recorded is skipped
with no effect at all and an unchanged database; a matched first run
records exactly one `mail.message` with the incoming `message_id`, and an
immediate second run over the resulting database is a complete no-op, so
processing the same message twice yields exactly one attached record. -/
theorem apply_matching_idempotent (server : Server) (folder : Folder)
    (msgid : Nat) (mail_message : ParsedMail) (matchList : List MRecord)
    (live : Nat → Bool) (db db' : Db)
    (hdb : ∀ r ∈ db.messages, r.message_id ≠ mail_message.message_id)
    (hm : matchedDecision matchList folder.match_first = true)
    (r : MsgRec) (hr : r ∈ db'.messages)
    (hmid : r.message_id = mail_message.message_id) :
    apply_matching server folder msgid mail_message matchList live db' = ([], db') ∧
    ((apply_matching server folder msgid mail_message matchList live db).2.messages.filter
        (fun q => q.message_id == mail_message.message_id)).length = 1 ∧
    apply_matching server folder msgid mail_message matchList live
        (apply_matching server folder msgid mail_message matchList live db).2 =
      ([], (apply_matching server folder msgid mail_message matchList live db).2) := by
  have hfilter : db.messages.filter
      (fun q => q.message_id == mail_message.message_id) = [] := by
    rw [List.filter_eq_nil_iff]
    intro q hq
    simp [hdb q hq]
  refine ⟨apply_matching_dup_eq server folder msgid mail_message matchList live db' r hr hmid,
    ?_, ?_⟩
  · rw [apply_matching_matched_eq server folder msgid mail_message matchList live db hdb hm]
    simp [attach_mail, List.filter_append, hfilter]
  · rw [apply_matching_matched_eq server folder msgid mail_message matchList live db hdb hm]
    exact apply_matching_dup_eq server folder msgid mail_message matchList live _
      ⟨mail_message.message_id, folder.model_name, (matchList.getD 0 ⟨0, none⟩).id⟩
      (by simp [attach_mail]) rfl

/-- Witness for claim C3: one candidate, an empty initial table and a
pre-populated table holding the same `message_id`. -/
theorem apply_matching_idempotent_witness :
    apply_matching serverSample folderSample 3 mailSample [recSample] liveAll
        ⟨[⟨"<m1@example.com>", "sale.order", 9⟩]⟩ =
      ([], ⟨[⟨"<m1@example.com>", "sale.order", 9⟩]⟩) ∧
    ((apply_matching serverSample folderSample 3 mailSample [recSample] liveAll dbEmpty).2.messages.filter
        (fun q => q.message_id == mailSample.message_id)).length = 1 ∧
    apply_matching serverSample folderSample 3 mailSample [recSample] liveAll
        (apply_matching serverSample folderSample 3 mailSample [recSample] liveAll dbEmpty).2 =
      ([], (apply_matching serverSample folderSample 3 mailSample [recSample] liveAll dbEmpty).2) :=
  apply_matching_idempotent serverSample folderSample 3 mailSample [recSample]
    liveAll dbEmpty ⟨[⟨"<m1@example.com>", "sale.order", 9⟩]⟩
    (by simp [dbEmpty]) rfl ⟨"<m1@example.com>", "sale.order", 9⟩ (by simp) rfl

/-- Claim C9: the dedup search of `apply_matching` matches on `message_id`
alone and ignores the stored record's model: a message already recorded
against a different model than the folder's target model is still skipped,
with no effect and no database change, so two folders targeting different
models can never both attach the same message. -/
theorem apply_matching_dedup_global (server : Server) (folder : Folder)
    (msgid : Nat) (mail_message : ParsedMail) (matchList : List MRecord)
    (live : Nat → Bool) (db : Db) (r : MsgRec) (hr : r ∈ db.messages)
    (hmid : r.message_id = mail_message.message_id)
    (hmodel : r.model ≠ folder.model_name) :
    apply_matching server folder msgid mail_message matchList live db = ([], db) :=
  apply_matching_dup_eq server folder msgid mail_message matchList live db r hr hmid

/-- Witness for claim C9: the stored record sits on `sale.order` while the
folder targets `res.partner`; the message is still skipped. -/
theorem apply_matching_dedup_global_witness :
    apply_matching serverSample folderSample 3 mailSample [recSample] liveAll
        ⟨[⟨"<m1@example.com>", "sale.order", 9⟩]⟩ =
      ([], ⟨[⟨"<m1@example.com>", "sale.order", 9⟩]⟩) :=
  apply_matching_dedup_global serverSample folderSample 3 mailSample [recSample]
    liveAll ⟨[⟨"<m1@example.com>", "sale.order", 9⟩]⟩
    ⟨"<m1@example.com>", "sale.order", 9⟩ (by simp) rfl (by decide)

/-- Claim C4: for a non-deduplicated message the `store` effects of
`apply_matching` are exactly those of `update_msg`, placed after all
other effects; on a match `delete_matching` stores `+FLAGS \DELETED` and
without it the message is left untouched (no store at all, the
flag-clearing branch being unreachable with `flagged=False`); on no match
`flag_nonmatching` stores `+FLAGS \FLAGGED` and no record is created. -/
theorem apply_matching_flag_update (server : Server) (folder : Folder)
    (msgid : Nat) (mail_message : ParsedMail) (matchList : List MRecord)
    (live : Nat → Bool) (db : Db)
    (hdb : ∀ r ∈ db.messages, r.message_id ≠ mail_message.message_id) :
    (∃ pre,
      (apply_matching server folder msgid mail_message matchList live db).1 =
        pre ++ update_msg folder msgid (matchedDecision matchList folder.match_first) false ∧
      pre.filter Effect.isStore = []) ∧
    (folder.delete_matching = true →
      update_msg folder msgid true false = [.store msgid "+FLAGS" "\\DELETED"]) ∧
    (folder.delete_matching = false →
      update_msg folder msgid true false = []) ∧
    (folder.flag_nonmatching = true →
      update_msg folder msgid false false = [.store msgid "+FLAGS" "\\FLAGGED"]) ∧
    (folder.flag_nonmatching = false →
      update_msg folder msgid false false = []) ∧
    (matchedDecision matchList folder.match_first = false →
      (apply_matching server folder msgid mail_message matchList live db).1.filter
        (fun e => e.isCreateMessage || e.isCreateAttachment) = []) := by
  refine ⟨?_, ?_, ?_, ?_, ?_, ?_⟩
  · cases hm : matchedDecision matchList folder.match_first with
    | true =>
        rw [apply_matching_matched_eq server folder msgid mail_message matchList live db hdb hm]
        refine ⟨(attach_mail server folder (matchList.getD 0 ⟨0, none⟩) mail_message db).1 ++
          run_server_action folder live [(matchList.getD 0 ⟨0, none⟩).id], ?_, ?_⟩
        · simp
        · simp only [attach_mail, List.filter_append,
            attachment_effects_filter_nil server folder _ mail_message
              Effect.isStore (fun _ _ _ _ => rfl),
            run_server_action_filter_nil folder live _ Effect.isStore
              (fun _ _ _ => rfl)]
          simp [Effect.isStore]
    | false =>
        rw [apply_matching_unmatched_eq server folder msgid mail_message matchList live db hdb hm]
        exact ⟨[], rfl, rfl⟩
  · intro h
    unfold update_msg
    simp [h]
  · intro h
    unfold update_msg
    simp [h]
  · intro h
    unfold update_msg
    simp [h]
  · intro h
    unfold update_msg
    simp [h]
  · intro hm
    rw [apply_matching_unmatched_eq server folder msgid mail_message matchList live db hdb hm]
    exact update_msg_filter_nil folder msgid false false _ (fun _ _ _ => rfl)

/-- Witness for claim C4, at a folder with `delete_matching` off and
`flag_nonmatching` on, one candidate and an empty message table. -/
theorem apply_matching_flag_update_witness :
    (∃ pre,
      (apply_matching serverSample folderSample 3 mailSample [recSample] liveAll dbEmpty).1 =
        pre ++ update_msg folderSample 3 (matchedDecision [recSample] folderSample.match_first) false ∧
      pre.filter Effect.isStore = []) ∧
    (folderSample.delete_matching = true →
      update_msg folderSample 3 true false = [.store 3 "+FLAGS" "\\DELETED"]) ∧
    (folderSample.delete_matching = false →
      update_msg folderSample 3 true false = []) ∧
    (folderSample.flag_nonmatching = true →
      update_msg folderSample 3 false false = [.store 3 "+FLAGS" "\\FLAGGED"]) ∧
    (folderSample.flag_nonmatching = false →
      update_msg folderSample 3 false false = []) ∧
    (matchedDecision [recSample] folderSample.match_first = false →
      (apply_matching serverSample folderSample 3 mailSample [recSample] liveAll dbEmpty).1.filter
        (fun e => e.isCreateMessage || e.isCreateAttachment) = []) :=
  apply_matching_flag_update serverSample folderSample 3 mailSample [recSample]
    liveAll dbEmpty (by simp [dbEmpty])

/-- Characterization of the author partner written by `attach_mail`, for
records with python-truthy (non-zero) identifiers. -/
theorem attach_author_eq (folder : Folder) (match_object : MRecord)
    (hid : match_object.id ≠ 0)
    (hpid : ∀ p, match_object.partner_id = some p → p ≠ 0) :
    attach_author folder match_object =
      (if folder.model_name = "res.partner" then some match_object.id
       else if folder.has_partner_field then match_object.partner_id
       else none) := by
  unfold attach_author attach_partner
  split_ifs with h1 h2
  · simp [hid]
  · cases hp : match_object.partner_id with
    | none => rfl
    | some p => simp [hpid p hp]
  · rfl

/-- Claim C8 (amended: the per-tuple `ir.attachment` creation only
happens when the server's `attach` flag is enabled): with the flag on,
`attach_mail` creates one `ir.attachment` per attachment tuple of length
at least 2, carrying the tuple's name and the base64 of its (utf-8
encoded when `str`) content, and skips shorter tuples; with the flag off
it creates none; in both cases it creates exactly one `mail.message` on
the matched record with message type `email`, carrying subject, body,
sender, date and `message_id`, the author being the matched record itself
for `res.partner` and its `partner_id` when that field exists. -/
theorem attach_mail_effects (server : Server) (folder : Folder)
    (match_object : MRecord) (mail_message : ParsedMail) (db : Db)
    (hid : match_object.id ≠ 0)
    (hpid : ∀ p, match_object.partner_id = some p → p ≠ 0) :
    (server.attach = true →
      (attach_mail server folder match_object mail_message db).1.filter
          Effect.isCreateAttachment =
        (mail_message.attachments.filter (fun a => 2 ≤ a.length)).map
          (fun a =>
            Effect.createAttachment (a.getD 0 (.str ""))
              (b64encode (pyEncode (a.getD 1 (.str ""))))
              folder.model_name match_object.id)) ∧
    (server.attach = false →
      (attach_mail server folder match_object mail_message db).1.filter
        Effect.isCreateAttachment = []) ∧
    (attach_mail server folder match_object mail_message db).1.filter
        Effect.isCreateMessage =
      [Effect.createMessage folder.model_name match_object.id "email"
        (if folder.model_name = "res.partner" then some match_object.id
         else if folder.has_partner_field then match_object.partner_id
         else none)
        mail_message.body mail_message.subject mail_message.email_from
        mail_message.date mail_message.message_id
        (attachment_effects server folder match_object mail_message).length] := by
  refine ⟨?_, ?_, ?_⟩
  · intro ha
    simp only [attach_mail, List.filter_append]
    have hmsg : List.filter Effect.isCreateAttachment
        [Effect.createMessage folder.model_name match_object.id "email"
          (attach_author folder match_object) mail_message.body
          mail_message.subject mail_message.email_from mail_message.date
          mail_message.message_id
          (attachment_effects server folder match_object mail_message).length] = [] := rfl
    rw [hmsg, List.append_nil]
    unfold attachment_effects
    rcases eq_or_ne mail_message.attachments [] with he | he
    · simp [he]
    · rw [if_pos ⟨ha, he⟩, List.filter_eq_self]
      intro e hme
      obtain ⟨a, _, rfl⟩ := List.mem_map.mp hme
      rfl
  · intro ha
    simp only [attach_mail, List.filter_append]
    have h0 : attachment_effects server folder match_object mail_message = [] := by
      simp [attachment_effects, ha]
    rw [h0]
    rfl
  · simp only [attach_mail, List.filter_append,
      attachment_effects_filter_nil server folder match_object mail_message
        Effect.isCreateMessage (fun _ _ _ _ => rfl)]
    rw [attach_author_eq folder match_object hid hpid]
    rfl

/-- Witness for claim C8 (amended), at a server keeping attachments, a
`res.partner` folder and a mail with one well-formed and one malformed
attachment tuple. -/
theorem attach_mail_effects_witness :
    (serverSample.attach = true →
      (attach_mail serverSample folderSample recSample mailSample dbEmpty).1.filter
          Effect.isCreateAttachment =
        (mailSample.attachments.filter (fun a => 2 ≤ a.length)).map
          (fun a =>
            Effect.createAttachment (a.getD 0 (.str ""))
              (b64encode (pyEncode (a.getD 1 (.str ""))))
              folderSample.model_name recSample.id)) ∧
    (serverSample.attach = false →
      (attach_mail serverSample folderSample recSample mailSample dbEmpty).1.filter
        Effect.isCreateAttachment = []) ∧
    (attach_mail serverSample folderSample recSample mailSample dbEmpty).1.filter
        Effect.isCreateMessage =
      [Effect.createMessage folderSample.model_name recSample.id "email"
        (if folderSample.model_name = "res.partner" then some recSample.id
         else if folderSample.has_partner_field then recSample.partner_id
         else none)
        mailSample.body mailSample.subject mailSample.email_from
        mailSample.date mailSample.message_id
        (attachment_effects serverSample folderSample recSample mailSample).length] :=
  attach_mail_effects serverSample folderSample recSample mailSample dbEmpty
    (by decide) (fun p hp => by simp [recSample] at hp; omega)

/-- Counterexample to claim C8 as stated: with the server's `attach` flag
off, a matched message carrying one well-formed attachment tuple yields
no `ir.attachment` creation at all, although the claim promises one per
well-formed tuple unconditionally. -/
theorem attach_mail_counterexample :
    (attach_mail ⟨false⟩ folderSample recSample mailSample dbEmpty).1.filter
        Effect.isCreateAttachment = [] ∧
    (mailSample.attachments.filter (fun a => 2 ≤ a.length)).length = 1 := by
  decide

/-- The folder scan over an appended id list processes the prefix first
and threads its final database state into the suffix. -/
theorem retrieve_imap_folder_append (step : Nat → Db → StepResult)
    (xs ys : List Nat) (db : Db) :
    retrieve_imap_folder step (xs ++ ys) db =
      ((retrieve_imap_folder step xs db).1 ++
         (retrieve_imap_folder step ys (retrieve_imap_folder step xs db).2.1).1,
       (retrieve_imap_folder step ys (retrieve_imap_folder step xs db).2.1).2.1,
       (retrieve_imap_folder step xs db).2.2 ++
         (retrieve_imap_folder step ys (retrieve_imap_folder step xs db).2.1).2.2) := by
  induction xs generalizing db with
  | nil => simp [retrieve_imap_folder]
  | cons m rest ih =>
      simp only [List.cons_append, retrieve_imap_folder]
      cases step m db <;> simp [ih]

/-- Claim C2: a message id whose per-message apply step raises contributes
no effects and no database writes — its savepoint is rolled back to the
state left by the preceding messages — it is logged as failed, and the
remaining ids are still processed from that same state, so the folder
scan's effects and final database are exactly those of the scan without
the failing message, and earlier messages' writes are untouched. -/
theorem retrieve_imap_folder_isolation (step : Nat → Db → StepResult)
    (xs ys : List Nat) (bad : Nat) (db : Db)
    (hbad : ∀ d, step bad d = .err) :
    (retrieve_imap_folder step (xs ++ bad :: ys) db).1 =
      (retrieve_imap_folder step (xs ++ ys) db).1 ∧
    (retrieve_imap_folder step (xs ++ bad :: ys) db).2.1 =
      (retrieve_imap_folder step (xs ++ ys) db).2.1 ∧
    (retrieve_imap_folder step (xs ++ bad :: ys) db).2.2 =
      (retrieve_imap_folder step xs db).2.2 ++
        bad :: (retrieve_imap_folder step ys (retrieve_imap_folder step xs db).2.1).2.2 := by
  rw [retrieve_imap_folder_append step xs (bad :: ys) db,
    retrieve_imap_folder_append step xs ys db]
  simp [retrieve_imap_folder, hbad]

/-- Witness for claim C2: ids 1 and 2 succeed, id 5 always raises; the
scan of `[1, 5, 2]` equals the scan of `[1, 2]` plus a log entry for 5. -/
theorem retrieve_imap_folder_isolation_witness :
    (retrieve_imap_folder stepSample ([1] ++ 5 :: [2]) dbEmpty).1 =
      (retrieve_imap_folder stepSample ([1] ++ [2]) dbEmpty).1 ∧
    (retrieve_imap_folder stepSample ([1] ++ 5 :: [2]) dbEmpty).2.1 =
      (retrieve_imap_folder stepSample ([1] ++ [2]) dbEmpty).2.1 ∧
    (retrieve_imap_folder stepSample ([1] ++ 5 :: [2]) dbEmpty).2.2 =
      (retrieve_imap_folder stepSample [1] dbEmpty).2.2 ++
        5 :: (retrieve_imap_folder stepSample [2]
          (retrieve_imap_folder stepSample [1] dbEmpty).2.1).2.2 :=
  retrieve_imap_folder_isolation stepSample [1] [2] 5 dbEmpty (fun _ => rfl)

/-- Claim C5: `fetch_mail` handles the folders of the recordset one after
another — a folder list splits into independent slices, so one failing
folder never aborts the others — skips folders that are inactive or not
Confirmed, uses one fresh connection per processed folder, logs an
exception raised while connecting or processing, logs out the connection
in the cleanup step whenever one was opened (logout is the final event of
the folder, even after a processing failure), and performs no logout when
`connect()` itself raised. -/
theorem fetch_mail_isolation (runs1 runs2 : List FolderRun) (r : FolderRun) :
    fetch_mail (runs1 ++ runs2) = fetch_mail runs1 ++ fetch_mail runs2 ∧
    (¬(r.folder.active = true ∧ r.folder.state = FolderState.done) →
      fetch_mail_one r = []) ∧
    (r.folder.active = true → r.folder.state = FolderState.done →
      r.connectOk = true → r.processOk = true →
      fetch_mail_one r =
        [.connect r.idx, .processed r.idx, .close r.idx, .logout r.idx]) ∧
    (r.folder.active = true → r.folder.state = FolderState.done →
      r.connectOk = true → r.processOk = false →
      fetch_mail_one r = [.connect r.idx, .logError r.idx, .logout r.idx]) ∧
    (r.folder.active = true → r.folder.state = FolderState.done →
      r.connectOk = false →
      fetch_mail_one r = [.logError r.idx] ∧
      FEvent.logout r.idx ∉ fetch_mail_one r) := by
  refine ⟨List.flatMap_append runs1 runs2 fetch_mail_one, ?_, ?_, ?_, ?_⟩
  · intro h
    cases ha : r.folder.active with
    | false => simp [fetch_mail_one, ha]
    | true =>
        rcases eq_or_ne r.folder.state FolderState.done with hs | hs
        · exact absurd ⟨ha, hs⟩ h
        · simp [fetch_mail_one, ha, hs, bne_iff_ne]
  · intro ha hs hc hp
    simp [fetch_mail_one, ha, hs, hc, hp]
  · intro ha hs hc hp
    simp [fetch_mail_one, ha, hs, hc, hp]
  · intro ha hs hc
    constructor
    · simp [fetch_mail_one, ha, hs, hc]
    · simp [fetch_mail_one, ha, hs, hc]

/-- Witness for claim C5: two slices of folder runs — an archived folder,
a successful one, a failing one and one whose connect raises — and the
failing-connect run as the singled-out folder. -/
theorem fetch_mail_isolation_witness :
    fetch_mail ([runSkip, runOk] ++ [runFail, runNoConn]) =
      fetch_mail [runSkip, runOk] ++ fetch_mail [runFail, runNoConn] ∧
    (¬(runNoConn.folder.active = true ∧ runNoConn.folder.state = FolderState.done) →
      fetch_mail_one runNoConn = []) ∧
    (runNoConn.folder.active = true → runNoConn.folder.state = FolderState.done →
      runNoConn.connectOk = true → runNoConn.processOk = true →
      fetch_mail_one runNoConn =
        [.connect runNoConn.idx, .processed runNoConn.idx, .close runNoConn.idx,
          .logout runNoConn.idx]) ∧
    (runNoConn.folder.active = true → runNoConn.folder.state = FolderState.done →
      runNoConn.connectOk = true → runNoConn.processOk = false →
      fetch_mail_one runNoConn =
        [.connect runNoConn.idx, .logError runNoConn.idx, .logout runNoConn.idx]) ∧
    (runNoConn.folder.active = true → runNoConn.folder.state = FolderState.done →
      runNoConn.connectOk = false →
      fetch_mail_one runNoConn = [.logError runNoConn.idx] ∧
      FEvent.logout runNoConn.idx ∉ fetch_mail_one runNoConn) :=
  fetch_mail_isolation [runSkip, runOk] [runFail, runNoConn] runNoConn

end Fetchmail

namespace Bydate

/-- Claim C10: every invocation of the bydate `get_msgids` unconditionally
invokes the remote debugger breakpoint (`pudb.remote.set_trace`) as its
very first step, for every connection, folder and cursor state, before any
search or internal-date fetch, so the date-policy scan never computes its
candidate ids without external debugger interaction. -/
theorem get_msgids_always_breakpoint (conn : ImapConn) (folder : BFolder) :
    ((get_msgids conn folder).1).head? = some GEvent.setTrace := by
  unfold get_msgids
  cases folder.last_internal_date <;> simp

/-- Claim C6: with an unset cursor the bydate `get_msgids` returns the
full `UNDELETED` search result (full backfill); with a set cursor it
issues a day-granularity `SINCE` search for the cursor's day, fetches the
server-assigned internal timestamp of every returned uid, and keeps
exactly the uids whose timestamp is strictly greater than the stored
cursor; every kept uid satisfies that strict bound, and an empty server
result yields an empty candidate set rather than an error. -/
theorem get_msgids_cursor_policy (conn : ImapConn) (folder : BFolder) (last : Nat) :
    (folder.last_internal_date = none →
      (get_msgids conn folder).2 = conn.searchUndeleted) ∧
    (folder.last_internal_date = some last →
      GEvent.searchSince (last / secondsPerDay) ∈ (get_msgids conn folder).1 ∧
      (∀ uid ∈ (conn.searchSince (last / secondsPerDay)).2,
        GEvent.fetchInternal uid ∈ (get_msgids conn folder).1) ∧
      (get_msgids conn folder).2.2 =
        (conn.searchSince (last / secondsPerDay)).2.filter
          (fun uid => last < conn.internalDate uid) ∧
      (∀ uid ∈ (get_msgids conn folder).2.2, last < conn.internalDate uid) ∧
      ((conn.searchSince (last / secondsPerDay)).2 = [] →
        (get_msgids conn folder).2.2 = [])) := by
  constructor
  · intro h
    unfold get_msgids
    rw [h]
  · intro h
    unfold get_msgids
    rw [h]
    refine ⟨?_, ?_, rfl, ?_, ?_⟩
    · simp
    · intro uid hu
      simp only [List.mem_cons, List.mem_map]
      exact Or.inr (Or.inr ⟨uid, hu, rfl⟩)
    · intro uid hu
      have := (List.mem_filter.mp hu).2
      exact of_decide_eq_true this
    · intro h0
      simp [h0]

/-- Claim C7: the bydate `handle_folder` advances the cursor to the
processing-time `now` after a successful pass, independent of any message
timestamp seen; on a failed pass (the inherited handler raised) the folder
is returned unchanged, so the cursor is only mutated at the end of a
successful pass; and `get_msgids` never returns a uid whose internal
timestamp is less than or equal to the stored cursor, so such a message is
never revisited. -/
theorem handle_folder_cursor_policy (now res : Nat) (folder : BFolder)
    (conn : ImapConn) (last uid : Nat)
    (h : conn.internalDate uid ≤ last) :
    ((handle_folder (some res) now folder).2).last_internal_date = some now ∧
    (handle_folder none now folder).2 = folder ∧
    uid ∉ (get_msgids conn ⟨some last⟩).2.2 := by
  refine ⟨rfl, rfl, ?_⟩
  intro hmem
  unfold get_msgids at hmem
  simp only [List.mem_filter, decide_eq_true_eq] at hmem
  exact absurd hmem.2 (by omega)

/-- Witness for claim C6, at a cursor of 150 seconds: the `SINCE` search
for day 0 is issued, every uid's internal date is fetched, and only uids
2 and 3 (timestamps 200 and 300) survive the strict cursor filter. -/
theorem get_msgids_cursor_policy_witness :
    GEvent.searchSince (150 / secondsPerDay) ∈ (get_msgids connSample ⟨some 150⟩).1 ∧
    (∀ uid ∈ (connSample.searchSince (150 / secondsPerDay)).2,
      GEvent.fetchInternal uid ∈ (get_msgids connSample ⟨some 150⟩).1) ∧
    (get_msgids connSample ⟨some 150⟩).2.2 =
      (connSample.searchSince (150 / secondsPerDay)).2.filter
        (fun uid => 150 < connSample.internalDate uid) ∧
    (∀ uid ∈ (get_msgids connSample ⟨some 150⟩).2.2,
      150 < connSample.internalDate uid) ∧
    ((connSample.searchSince (150 / secondsPerDay)).2 = [] →
      (get_msgids connSample ⟨some 150⟩).2.2 = []) :=
  (get_msgids_cursor_policy connSample ⟨some 150⟩ 150).2 rfl

/-- Witness for claim C7, with cursor 150, processing time 500 and
uid 1 whose internal timestamp 100 does not exceed the cursor. -/
theorem handle_folder_cursor_policy_witness :
    ((handle_folder (some 0) 500 ⟨some 150⟩).2).last_internal_date = some 500 ∧
    (handle_folder none 500 ⟨some 150⟩).2 = (⟨some 150⟩ : BFolder) ∧
    1 ∉ (get_msgids connSample ⟨some 150⟩).2.2 :=
  handle_folder_cursor_policy 500 0 ⟨some 150⟩ connSample 150 1 (by decide)

end Bydate
